import Mathlib

/-!
Shallow embedding of the patch-editing tool layer of the friendly_ground_truth
repository (src/friendly_ground_truth/controller/tools.py and
src/friendly_ground_truth/view/main_window.py), together with the Patch and
UndoManager collaborators that the tools call into.

Conventions of the embedding:
* Python floats become `Rat` (exact arithmetic stands in for float arithmetic).
* Python `None` becomes `Option.none`; a Python statement that would raise
  (attribute access on `None`, list `IndexError`) makes the embedded function
  return `none` of an outer `Option`.
* Mutation of `self` becomes explicit state passing: each embedded method takes
  the relevant state pieces and returns the updated ones.
* `copy.deepcopy(patch)` is the identity on values: Lean values are immutable,
  so a stored snapshot is automatically independent of later "mutation"
  (which produces a new value).
* Observer notification (`_notify_observers`, brush observers) is embedded as
  a count of notification rounds performed by the call, since the callbacks
  themselves are external display-layer code.
* The region-edit math provider (Patch.add_region, flood_add_region, ...) is
  external to the core per the spec, so tool methods are parameterized by a
  `RegionMath` record of opaque functions.
-/

namespace FGT

/-- Positions are (x, y) coordinates passed through to the region math. -/
abbrev Pos := Int × Int

/-- Modelled from the spec: the `Patch` class is not under src/ (only its
callers in tools.py are). Per spec §3 a Patch carries `patch_index`, a mutable
boolean `mask` bitmap and a `threshold` in [0,1]; `bounds`/`pixel_data` are
read-only external data not needed by the tool layer. -/
structure Patch where
  patch_index : Nat
  mask : List Bool
  threshold : Rat
deriving DecidableEq, Repr

/-- Modelled from the spec: `Patch.clear_mask()` "sets every mask cell to
false/background" (spec §4.1); the Patch class is not under src/. -/
def Patch.clear_mask (p : Patch) : Patch :=
  { p with mask := p.mask.map (fun _ => false) }

/-- Modelled from the spec: the region-edit math provider (spec §6) supplies
`add_region`, `remove_region`, `flood_add_region`, `flood_remove_region` as
black-box deterministic functions; the tool layer only chooses when and with
which parameters to invoke them. Each takes the click position and the tool
parameter (radius or tolerance) and transforms the patch. -/
structure RegionMath where
  add_region : Pos → Rat → Patch → Patch
  remove_region : Pos → Rat → Patch → Patch
  flood_add_region : Pos → Rat → Patch → Patch
  flood_remove_region : Pos → Rat → Patch → Patch

/-- A trivial instantiation of the external region math, used to evaluate the
embedding on concrete inputs. -/
def RegionMath.triv : RegionMath where
  add_region := fun _ _ p => { p with mask := p.mask.map (fun _ => true) }
  remove_region := fun _ _ p => { p with mask := p.mask.map (fun _ => false) }
  flood_add_region := fun _ t p => { p with threshold := t }
  flood_remove_region := fun _ _ p => p

/-- Modelled from the spec: an undo entry is a deep-copied patch snapshot plus
a string tag (spec §3 UndoEntry); the UndoManager class is not under src/. -/
structure UndoEntry where
  snapshot : Patch
  tag : String
deriving DecidableEq, Repr

/-- Modelled from the spec: the UndoManager (spec §3, §4.2) keeps two bounded
stacks of (snapshot, tag) pairs, most-recent first here. The class itself is
not under src/; tools.py only calls `add_to_undo_stack`, `undo` and `redo`. -/
structure UndoManager where
  undo_stack : List UndoEntry
  redo_stack : List UndoEntry
  capacity : Nat
deriving DecidableEq, Repr

/-- Modelled from the spec: `add_to_undo_stack(patch_snapshot, tag)` pushes the
pair, clears the redo stack, and evicts the oldest entry when the undo stack
would exceed capacity (spec §4.2). -/
def UndoManager.add_to_undo_stack (m : UndoManager) (snap : Patch) (tag : String) :
    UndoManager :=
  { m with undo_stack := (UndoEntry.mk snap tag :: m.undo_stack).take m.capacity,
           redo_stack := [] }

/-- Modelled from the spec: `undo()` returns a "nothing to undo" sentinel on an
empty stack; otherwise it pops the top entry, pushes a fresh snapshot of the
current live patch onto the redo stack under the same tag, and returns the
popped (snapshot, tag) (spec §4.2). -/
def UndoManager.undo (m : UndoManager) (current : Patch) :
    Option (Patch × String) × UndoManager :=
  match m.undo_stack with
  | [] => (none, m)
  | e :: rest =>
      (some (e.snapshot, e.tag),
       { m with undo_stack := rest,
                redo_stack := (UndoEntry.mk current e.tag :: m.redo_stack).take m.capacity })

/-- Modelled from the spec: `redo()` is symmetric to `undo()` (spec §4.2). -/
def UndoManager.redo (m : UndoManager) (current : Patch) :
    Option (Patch × String) × UndoManager :=
  match m.redo_stack with
  | [] => (none, m)
  | e :: rest =>
      (some (e.snapshot, e.tag),
       { m with redo_stack := rest,
                undo_stack := (UndoEntry.mk current e.tag :: m.undo_stack).take m.capacity })

/-- Python list indexing `xs[i]`: a negative index counts from the end; an
index out of range raises IndexError, embedded as `none`. -/
def pyGet {α : Type} (xs : List α) (i : Int) : Option α :=
  let j : Int := if i < 0 then (xs.length : Int) + i else i
  if 0 ≤ j ∧ j < (xs.length : Int) then xs.get? j.toNat else none

/-! ## ThresholdTool (tools.py lines 277-464) -/

/-- State of a `ThresholdTool` instance: `_threshold`, `_increment`, `_patch`,
`_slider_init`, `_new_patch` from `ThresholdTool.__init__`, plus `_can_undo`
from the `FGTTool` base. `slider_present` embeds `_threshold_slider is not
None`, and `slider_var` the slider variable's value. -/
structure ThresholdToolState where
  threshold : Rat
  increment : Rat
  patch : Option Patch
  slider_present : Bool
  slider_var : Rat
  slider_init : Bool
  new_patch : Bool
  can_undo : Bool
deriving DecidableEq, Repr

/-- The state a `ThresholdTool` starts in after `__init__` (tools.py 286-305):
threshold 0, increment 0.01, no patch, no slider, `_new_patch = False`,
`_can_undo = True`. -/
def ThresholdToolState.init : ThresholdToolState where
  threshold := 0
  increment := 0.01
  patch := none
  slider_present := false
  slider_var := 0
  slider_init := false
  new_patch := false
  can_undo := true

/-- Result of an effectful ThresholdTool call: the updated tool state, the
updated undo manager, and how many observer-notification rounds ran. -/
structure ThreshEffect where
  state : ThresholdToolState
  mgr : UndoManager
  notified : Nat
deriving DecidableEq, Repr

/-- The `ThresholdTool.threshold` setter (tools.py 311-335). In range
(`value <= 1 and value >= 0`) it stores the value; when `_new_patch` is false
it writes the value into the bound patch and, if `_can_undo`, pushes a deep
copy of the (already updated) patch tagged `threshold_adjust`; then it updates
the slider when present and initialized, notifies observers once, and clears
`_new_patch`. Out of range it does nothing at all. Writing the patch when
`_patch is None` raises in Python, embedded as `none`. -/
def ThresholdTool.set_threshold (s : ThresholdToolState) (mgr : UndoManager)
    (value : Rat) : Option ThreshEffect :=
  if value ≤ 1 ∧ 0 ≤ value then
    let s1 := { s with threshold := value }
    let step2 : Option (ThresholdToolState × UndoManager) :=
      if s.new_patch = false then
        match s1.patch with
        | none => none
        | some p =>
            let p' := { p with threshold := value }
            let mgr' := if s.can_undo then
                mgr.add_to_undo_stack p' "threshold_adjust"
              else mgr
            some ({ s1 with patch := some p' }, mgr')
      else some (s1, mgr)
    match step2 with
    | none => none
    | some (s2, mgr2) =>
        let s3 := if s2.slider_present ∧ s2.slider_init then
            { s2 with slider_var := value }
          else s2
        some { state := { s3 with new_patch := false }, mgr := mgr2, notified := 1 }
  else some { state := s, mgr := mgr, notified := 0 }

/-- The `ThresholdTool.patch` setter (tools.py 349-358): flags `_new_patch`
when no patch was bound or the index changed, rebinds the patch, resets
`_slider_init`, and loads the patch's threshold into `_threshold` directly
(without going through the threshold setter). -/
def ThresholdTool.set_patch (s : ThresholdToolState) (p : Patch) :
    ThresholdToolState :=
  let np := match s.patch with
    | none => true
    | some q => if p.patch_index ≠ q.patch_index then true else s.new_patch
  { s with patch := some p, slider_init := false, threshold := p.threshold,
           new_patch := np }

/-- `ThresholdTool._adjust_threshold` (tools.py 435-451): the direction is
deliberately inverted in the source ("Note inverted direction"): a negative
direction increases the threshold by the increment, otherwise it is
decreased. -/
def ThresholdTool.adjust_threshold (s : ThresholdToolState) (mgr : UndoManager)
    (direction : Int) : Option ThreshEffect :=
  if direction < 0 then
    ThresholdTool.set_threshold s mgr (s.threshold + s.increment)
  else
    ThresholdTool.set_threshold s mgr (s.threshold - s.increment)

/-- `ThresholdTool.on_adjust` (tools.py 453-464) just delegates to
`_adjust_threshold`. -/
def ThresholdTool.on_adjust (s : ThresholdToolState) (mgr : UndoManager)
    (direction : Int) : Option ThreshEffect :=
  ThresholdTool.adjust_threshold s mgr direction

/-! ## AddRegionTool / RemoveRegionTool (tools.py lines 467-860) -/

/-- State of an `AddRegionTool` or `RemoveRegionTool` instance:
`_brush_radius` from `__init__` (both start at 15), `sizer_present` embedding
`_brush_sizer is not None` and `sizer_var` the spinbox variable. The bound
patch is passed explicitly to the click/drag embeddings. -/
structure BrushToolState where
  brush_radius : Rat
  sizer_present : Bool
  sizer_var : Rat
deriving DecidableEq, Repr

/-- The state a brush tool starts in after `__init__` (tools.py 475-491 and
674-687): radius 15, no sizer widget. -/
def BrushToolState.init : BrushToolState where
  brush_radius := 15
  sizer_present := false
  sizer_var := 15

/-- The `AddRegionTool.brush_radius` setter (tools.py 497-506): a value `>= 0`
is stored, every brush observer is called (one notification round), and the
sizer variable is updated when the sizer exists; a negative value does
nothing. Returns the new state and the number of notification rounds. -/
def AddRegionTool.set_brush_radius (s : BrushToolState) (value : Rat) :
    BrushToolState × Nat :=
  if 0 ≤ value then
    ({ s with brush_radius := value,
              sizer_var := if s.sizer_present then value else s.sizer_var }, 1)
  else (s, 0)

/-- `AddRegionTool.on_adjust` (tools.py 569-582): a positive direction sets
`brush_radius + 1` through the setter, otherwise `brush_radius - 1`. -/
def AddRegionTool.on_adjust (s : BrushToolState) (direction : Int) :
    BrushToolState × Nat :=
  if 0 < direction then AddRegionTool.set_brush_radius s (s.brush_radius + 1)
  else AddRegionTool.set_brush_radius s (s.brush_radius - 1)

/-- `AddRegionTool.on_click` (tools.py 596-609): pushes `copy.deepcopy(patch)`
tagged `add_region` onto the undo stack, then `_draw` adds a brush circle at
the position and notifies observers once. Returns the mutated patch, the
updated manager and the notification count. -/
def AddRegionTool.on_click (rm : RegionMath) (s : BrushToolState) (p : Patch)
    (mgr : UndoManager) (position : Pos) : Patch × UndoManager × Nat :=
  let mgr1 := mgr.add_to_undo_stack p "add_region"
  (rm.add_region position s.brush_radius p, mgr1, 1)

/-- The tag computed by `AddRegionTool.on_drag` (tools.py 622-626):
`"add_region_adjust"`, with `"_" + str(drag_id)` appended when a drag id is
given. -/
def AddRegionTool.drag_tag (drag_id : Option Nat) : String :=
  "add_region_adjust" ++ (match drag_id with
    | some d => "_" ++ toString d
    | none => "")

/-- `AddRegionTool.on_drag` (tools.py 611-633): pushes a deep copy of the
patch under the drag tag, then dispatches `_draw` (brush-circle add plus one
observer notification) on a worker thread; the embedding performs the draw
synchronously, which is the state in which the worker has completed. -/
def AddRegionTool.on_drag (rm : RegionMath) (s : BrushToolState) (p : Patch)
    (mgr : UndoManager) (position : Pos) (drag_id : Option Nat) :
    Patch × UndoManager × Nat :=
  let mgr1 := mgr.add_to_undo_stack p (AddRegionTool.drag_tag drag_id)
  (rm.add_region position s.brush_radius p, mgr1, 1)

/-- The `RemoveRegionTool.brush_radius` setter (tools.py 693-702), identical
in shape to the add-region one. -/
def RemoveRegionTool.set_brush_radius (s : BrushToolState) (value : Rat) :
    BrushToolState × Nat :=
  if 0 ≤ value then
    ({ s with brush_radius := value,
              sizer_var := if s.sizer_present then value else s.sizer_var }, 1)
  else (s, 0)

/-- `RemoveRegionTool.on_adjust` (tools.py 765-778). -/
def RemoveRegionTool.on_adjust (s : BrushToolState) (direction : Int) :
    BrushToolState × Nat :=
  if 0 < direction then RemoveRegionTool.set_brush_radius s (s.brush_radius + 1)
  else RemoveRegionTool.set_brush_radius s (s.brush_radius - 1)

/-- `RemoveRegionTool.on_click` (tools.py 792-805): pushes the pre-mutation
patch tagged `remove_region`, then `_draw` removes a brush circle and
notifies once. -/
def RemoveRegionTool.on_click (rm : RegionMath) (s : BrushToolState) (p : Patch)
    (mgr : UndoManager) (position : Pos) : Patch × UndoManager × Nat :=
  let mgr1 := mgr.add_to_undo_stack p "remove_region"
  (rm.remove_region position s.brush_radius p, mgr1, 1)

/-- The tag computed by `RemoveRegionTool.on_drag` (tools.py 818-821). -/
def RemoveRegionTool.drag_tag (drag_id : Option Nat) : String :=
  "remove_region_adjust" ++ (match drag_id with
    | some d => "_" ++ toString d
    | none => "")

/-- `RemoveRegionTool.on_drag` (tools.py 807-828), mirroring the add-region
drag with the `remove_region_adjust` tag family. -/
def RemoveRegionTool.on_drag (rm : RegionMath) (s : BrushToolState) (p : Patch)
    (mgr : UndoManager) (position : Pos) (drag_id : Option Nat) :
    Patch × UndoManager × Nat :=
  let mgr1 := mgr.add_to_undo_stack p (RemoveRegionTool.drag_tag drag_id)
  (rm.remove_region position s.brush_radius p, mgr1, 1)

/-! ## FloodAddTool / FloodRemoveTool (tools.py lines 960-1314) -/

/-- State of a flood tool instance: `_tolerance`, `_increment`,
`_prev_position`, slider fields from `__init__` (tools.py 970-988 and
1145-1162). The bound patch is passed explicitly. -/
structure FloodToolState where
  tolerance : Rat
  increment : Rat
  prev_position : Option Pos
  slider_present : Bool
  slider_var : Rat
  slider_init : Bool
deriving DecidableEq, Repr

/-- The state a flood tool starts in after `__init__`: tolerance 0.05,
increment 0.01, no previous position, no slider. -/
def FloodToolState.init : FloodToolState where
  tolerance := 0.05
  increment := 0.01
  prev_position := none
  slider_present := false
  slider_var := 0
  slider_init := false

/-- `FloodAddTool._add_region` (tools.py 1057-1074): a no-op when the position
is `None`; otherwise floods the patch at the current tolerance and notifies
observers once. -/
def FloodAddTool.add_region (rm : RegionMath) (s : FloodToolState) (p : Patch)
    (position : Option Pos) : Patch × Nat :=
  match position with
  | none => (p, 0)
  | some pos => (rm.flood_add_region pos s.tolerance p, 1)

/-- The `FloodAddTool.tolerance` setter (tools.py 994-1004): a value `>= 0` is
stored, the slider is updated when present, `_add_region(_prev_position)`
re-runs the flood from the remembered seed, and observers are notified once
more; a negative value does nothing. -/
def FloodAddTool.set_tolerance (rm : RegionMath) (s : FloodToolState)
    (p : Patch) (value : Rat) : FloodToolState × Patch × Nat :=
  if 0 ≤ value then
    let s1 := { s with tolerance := value,
                       slider_var := if s.slider_present then value else s.slider_var }
    let (p1, n1) := FloodAddTool.add_region rm s1 p s1.prev_position
    (s1, p1, n1 + 1)
  else (s, p, 0)

/-- The `FloodAddTool.patch` setter (tools.py 1018-1022): rebinding the patch
clears the remembered seed position and the slider-init flag. -/
def FloodAddTool.set_patch (s : FloodToolState) : FloodToolState :=
  { s with prev_position := none, slider_init := false }

/-- `FloodAddTool.on_click` (tools.py 1024-1037): remembers the position as
the seed, pushes a deep copy of the pre-flood patch tagged `flood_add`, then
floods at the position. -/
def FloodAddTool.on_click (rm : RegionMath) (s : FloodToolState) (p : Patch)
    (mgr : UndoManager) (position : Pos) : FloodToolState × Patch × UndoManager × Nat :=
  let s1 := { s with prev_position := some position }
  let mgr1 := mgr.add_to_undo_stack p "flood_add"
  let (p1, n1) := FloodAddTool.add_region rm s1 p (some position)
  (s1, p1, mgr1, n1)

/-- `FloodAddTool.on_adjust` (tools.py 1039-1055): nudges the tolerance by the
increment through the setter (positive direction up, otherwise down) and then
calls `_add_region(_prev_position)` once more. The undo manager is passed
through untouched: the method body never references it. -/
def FloodAddTool.on_adjust (rm : RegionMath) (s : FloodToolState) (p : Patch)
    (mgr : UndoManager) (direction : Int) :
    FloodToolState × Patch × UndoManager × Nat :=
  let (s1, p1, n1) :=
    if 0 < direction then
      FloodAddTool.set_tolerance rm s p (s.tolerance + s.increment)
    else
      FloodAddTool.set_tolerance rm s p (s.tolerance - s.increment)
  let (p2, n2) := FloodAddTool.add_region rm s1 p1 s1.prev_position
  (s1, p2, mgr, n1 + n2)

/-- `FloodRemoveTool._remove_region` (tools.py 1231-1250): a no-op when the
position is `None`; otherwise flood-removes at the current tolerance and
notifies observers once. -/
def FloodRemoveTool.remove_region (rm : RegionMath) (s : FloodToolState)
    (p : Patch) (position : Option Pos) : Patch × Nat :=
  match position with
  | none => (p, 0)
  | some pos => (rm.flood_remove_region pos s.tolerance p, 1)

/-- The `FloodRemoveTool.tolerance` setter (tools.py 1168-1178): unlike the
flood-add one its guard is strict (`value > 0`), so zero is rejected exactly
like a negative value. -/
def FloodRemoveTool.set_tolerance (rm : RegionMath) (s : FloodToolState)
    (p : Patch) (value : Rat) : FloodToolState × Patch × Nat :=
  if 0 < value then
    let s1 := { s with tolerance := value,
                       slider_var := if s.slider_present then value else s.slider_var }
    let (p1, n1) := FloodRemoveTool.remove_region rm s1 p s1.prev_position
    (s1, p1, n1 + 1)
  else (s, p, 0)

/-- The `FloodRemoveTool.patch` setter (tools.py 1192-1196). -/
def FloodRemoveTool.set_patch (s : FloodToolState) : FloodToolState :=
  { s with prev_position := none, slider_init := false }

/-- `FloodRemoveTool.on_click` (tools.py 1198-1211): remembers the seed, pushes
the pre-flood patch tagged `flood_remove`, then flood-removes. -/
def FloodRemoveTool.on_click (rm : RegionMath) (s : FloodToolState) (p : Patch)
    (mgr : UndoManager) (position : Pos) : FloodToolState × Patch × UndoManager × Nat :=
  let s1 := { s with prev_position := some position }
  let mgr1 := mgr.add_to_undo_stack p "flood_remove"
  let (p1, n1) := FloodRemoveTool.remove_region rm s1 p (some position)
  (s1, p1, mgr1, n1)

/-- `FloodRemoveTool.on_adjust` (tools.py 1213-1229), mirroring the flood-add
adjust; the undo manager is passed through untouched. -/
def FloodRemoveTool.on_adjust (rm : RegionMath) (s : FloodToolState) (p : Patch)
    (mgr : UndoManager) (direction : Int) :
    FloodToolState × Patch × UndoManager × Nat :=
  let (s1, p1, n1) :=
    if 0 < direction then
      FloodRemoveTool.set_tolerance rm s p (s.tolerance + s.increment)
    else
      FloodRemoveTool.set_tolerance rm s p (s.tolerance - s.increment)
  let (p2, n2) := FloodRemoveTool.remove_region rm s1 p1 s1.prev_position
  (s1, p2, mgr, n1 + n2)

/-- The base-class `FGTTool.on_drag` (tools.py 218-229) is `pass`: it changes
nothing and pushes nothing. The flood tools do not override it, so this is
what an `on_drag` invocation on a flood tool runs. -/
def FloodAddTool.on_drag (s : FloodToolState) (p : Patch) (mgr : UndoManager)
    (_position : Pos) (_drag_id : Option Nat) :
    FloodToolState × Patch × UndoManager × Nat :=
  (s, p, mgr, 0)

/-! ## Navigation and NoRoot tools (tools.py lines 863-957 and 1317-1452) -/

/-- `NextPatchTool._next_patch` (tools.py 1432-1452): looks at index
`current_patch_num + 1`; when it is below the patch count the patch there and
the index are returned, otherwise `(None, -1)`. The outer `Option` is the
Python IndexError (reachable only from invalid negative current indices). -/
def NextPatchTool.next_patch (patches : List Patch) (current_patch_num : Int) :
    Option (Option Patch × Int) :=
  let next_index := current_patch_num + 1
  if next_index < (patches.length : Int) then
    match pyGet patches next_index with
    | some p => some (some p, next_index)
    | none => none
  else some (none, -1)

/-- `PreviousPatchTool._prev_patch` (tools.py 1365-1385): looks at index
`current_patch_num - 1`; when it is `>= 0` the patch there and the index are
returned, otherwise `(None, -1)`. -/
def PreviousPatchTool.prev_patch (patches : List Patch) (current_patch_num : Int) :
    Option (Option Patch × Int) :=
  let prev_index := current_patch_num - 1
  if 0 ≤ prev_index then
    match pyGet patches prev_index with
    | some p => some (some p, prev_index)
    | none => none
  else some (none, -1)

/-- `NoRootTool._next_patch` (tools.py 937-957), textually the same algorithm
as `NextPatchTool._next_patch`. -/
def NoRootTool.next_patch (patches : List Patch) (current_patch_num : Int) :
    Option (Option Patch × Int) :=
  let next_index := current_patch_num + 1
  if next_index < (patches.length : Int) then
    match pyGet patches next_index with
    | some p => some (some p, next_index)
    | none => none
  else some (none, -1)

/-- `NoRootTool.on_activate` (tools.py 891-922): pushes a deep copy of the
bound patch tagged `no_root`, clears the patch's mask via `_no_root`, computes
the next patch from the current index, and finally calls the activation
callback with that (patch, index) pair. The embedding returns the cleared
patch, the updated manager, and the pair handed to the callback. -/
def NoRootTool.on_activate (patches : List Patch) (p : Patch)
    (mgr : UndoManager) (current_patch_num : Int) :
    Option (Patch × UndoManager × (Option Patch × Int)) :=
  let mgr1 := mgr.add_to_undo_stack p "no_root"
  let p1 := Patch.clear_mask p
  match NoRootTool.next_patch patches current_patch_num with
  | none => none
  | some res => some (p1, mgr1, res)

/-! ## MainWindow.show_image (main_window.py lines 262-304) -/

/-- Externally visible actions `MainWindow.show_image` performs, in order. The
timer and the preview thread both target `update_preview`. -/
inductive MWAction where
  | createCanvas
  | newImage
  | startPreviewThread
  | setImage
  | cancelTimer
  | startTimer (delay : Rat)
deriving DecidableEq, Repr

/-- The pieces of `MainWindow` state that `show_image` touches: whether
`_canvas` exists and the pending preview timer `_cur_preview_thread` (its
delay, targeting `update_preview`), or `none` when no timer is pending. -/
structure MainWindowState where
  canvas_present : Bool
  cur_preview_thread : Option Rat
deriving DecidableEq, Repr

/-- `MainWindow.show_image` (main_window.py 262-297): with no canvas it
creates one and returns; with `new=True` it loads the new image and spawns a
preview thread; otherwise it sets the image, cancels the pending preview
timer if there is one, and starts a fresh `threading.Timer(1.0,
update_preview)`. Returns the new state and the ordered action list. -/
def MainWindow.show_image (s : MainWindowState) (new : Bool) :
    MainWindowState × List MWAction :=
  if s.canvas_present = false then
    ({ s with canvas_present := true }, [MWAction.createCanvas])
  else if new then
    (s, [MWAction.newImage, MWAction.startPreviewThread])
  else
    let cancels := match s.cur_preview_thread with
      | some _ => [MWAction.cancelTimer]
      | none => []
    ({ s with cur_preview_thread := some 1 },
     [MWAction.setImage] ++ cancels ++ [MWAction.startTimer 1])

/-! ## Concrete fixtures for evaluating the embedding -/

/-- A small concrete patch used to evaluate the embedding. -/
def samplePatch : Patch := { patch_index := 0, mask := [false, true], threshold := 1/2 }

/-- A second concrete patch with a different index. -/
def samplePatch2 : Patch := { patch_index := 1, mask := [true, true], threshold := 1/4 }

/-- A fresh undo manager with empty stacks and capacity 20. -/
def emptyUndoManager : UndoManager := { undo_stack := [], redo_stack := [], capacity := 20 }

end FGT

open FGT

/-! ## Helper lemmas -/

/-- Python indexing at a nonnegative index is plain list lookup. -/
theorem pyGet_of_nonneg {α : Type} (xs : List α) (i : Int) (h : 0 ≤ i) :
    pyGet xs i = xs.get? i.toNat := by
  have hneg : ¬ i < 0 := by omega
  simp only [pyGet]
  rw [if_neg hneg]
  by_cases hlt : i < (xs.length : Int)
  · rw [if_pos ⟨h, hlt⟩]
  · rw [if_neg (fun hc => hlt hc.2), eq_comm, List.get?_eq_none]
    omega

/-- The tolerance stored by the flood-remove setter: the new value when
strictly positive, the old one otherwise. -/
theorem FloodRemoveTool.set_tolerance_guards (rm : RegionMath)
    (s : FloodToolState) (p : Patch) (v : Rat) :
    (FloodRemoveTool.set_tolerance rm s p v).1.tolerance
      = if 0 < v then v else s.tolerance := by
  unfold FloodRemoveTool.set_tolerance
  by_cases hv : (0:ℚ) < v
  · rw [if_pos hv, if_pos hv]
  · rw [if_neg hv, if_neg hv]

/-- The tolerance stored by the flood-add setter: the new value when
nonnegative, the old one otherwise. -/
theorem FloodAddTool.set_tolerance_stores (rm : RegionMath)
    (s : FloodToolState) (p : Patch) (v : Rat) :
    (FloodAddTool.set_tolerance rm s p v).1.tolerance
      = if 0 ≤ v then v else s.tolerance := by
  unfold FloodAddTool.set_tolerance
  by_cases hv : (0:ℚ) ≤ v
  · rw [if_pos hv, if_pos hv]
  · rw [if_neg hv, if_neg hv]

/-- The tool state returned by `FloodAddTool.on_adjust` is the one the setter
produced at the nudged value. -/
theorem FloodAddTool.on_adjust_state_add (rm : RegionMath) (s : FloodToolState)
    (p : Patch) (mgr : UndoManager) (d : Int) :
    (FloodAddTool.on_adjust rm s p mgr d).1
      = (FloodAddTool.set_tolerance rm s p
          (if 0 < d then s.tolerance + s.increment
           else s.tolerance - s.increment)).1 := by
  unfold FloodAddTool.on_adjust
  by_cases hd : 0 < d <;> simp [hd]

/-- The tool state returned by `FloodRemoveTool.on_adjust` is the one the
setter produced at the nudged value. -/
theorem FloodRemoveTool.on_adjust_state_remove (rm : RegionMath) (s : FloodToolState)
    (p : Patch) (mgr : UndoManager) (d : Int) :
    (FloodRemoveTool.on_adjust rm s p mgr d).1
      = (FloodRemoveTool.set_tolerance rm s p
          (if 0 < d then s.tolerance + s.increment
           else s.tolerance - s.increment)).1 := by
  unfold FloodRemoveTool.on_adjust
  by_cases hd : 0 < d <;> simp [hd]

/-- An in-range write through the threshold setter while `_new_patch` is set:
only the tool-local threshold (and slider) change, the patch and the undo
manager are untouched, observers are notified once, and `_new_patch` is
cleared. -/
theorem ThresholdTool.set_threshold_of_new_patch (s : ThresholdToolState)
    (mgr : UndoManager) (v : Rat) (h1 : v ≤ 1) (h0 : 0 ≤ v)
    (hnp : s.new_patch = true) :
    ThresholdTool.set_threshold s mgr v
      = some ⟨{ s with
                threshold := v,
                slider_var := if s.slider_present ∧ s.slider_init then v
                              else s.slider_var,
                new_patch := false }, mgr, 1⟩ := by
  simp only [ThresholdTool.set_threshold, if_pos (And.intro h1 h0), hnp]
  by_cases hs : s.slider_present = true ∧ s.slider_init = true <;> simp [hs]

/-- An in-range write through the threshold setter while `_new_patch` is
clear and a patch is bound: the value is stored, written into the patch, and
(when undos are unlocked) a copy of the updated patch is pushed under
`threshold_adjust`. -/
theorem ThresholdTool.set_threshold_of_bound (s : ThresholdToolState)
    (mgr : UndoManager) (v : Rat) (p : Patch) (h1 : v ≤ 1) (h0 : 0 ≤ v)
    (hnp : s.new_patch = false) (hp : s.patch = some p) :
    ThresholdTool.set_threshold s mgr v
      = some ⟨{ s with
                threshold := v,
                patch := some { p with threshold := v },
                slider_var := if s.slider_present ∧ s.slider_init then v
                              else s.slider_var,
                new_patch := false },
              if s.can_undo then
                mgr.add_to_undo_stack { p with threshold := v } "threshold_adjust"
              else mgr,
              1⟩ := by
  simp only [ThresholdTool.set_threshold, if_pos (And.intro h1 h0), hnp, hp]
  by_cases hs : s.slider_present = true ∧ s.slider_init = true <;>
    by_cases hu : s.can_undo = true <;> simp [hs, hu]

/-! ## Claims -/

/-- A threshold tool in ordinary operation: patch bound, `_new_patch` clear,
threshold 1/2, increment 0.01, undos unlocked. -/
def thresholdFixture : ThresholdToolState :=
  { ThresholdToolState.init with threshold := 1/2, patch := some samplePatch }

/-- C1 fails as stated: `ThresholdTool.on_adjust` deliberately inverts the
direction (tools.py 446-451), so at threshold 1/2 a positive direction yields
49/100, a decrease, not an increase by the increment. -/
theorem C1_counterexample :
    (ThresholdTool.on_adjust thresholdFixture emptyUndoManager 1).map
        (fun r => r.state.threshold) = some (49/100) ∧
    ¬ (1/2 : ℚ) < 49/100 := by
  constructor
  · rw [ThresholdTool.on_adjust, ThresholdTool.adjust_threshold,
        if_neg (by norm_num : ¬ (1:Int) < 0),
        ThresholdTool.set_threshold_of_bound thresholdFixture emptyUndoManager
          _ samplePatch
          (by norm_num [thresholdFixture, ThresholdToolState.init])
          (by norm_num [thresholdFixture, ThresholdToolState.init]) rfl rfl]
    norm_num [thresholdFixture, ThresholdToolState.init]
  · norm_num

/-- C1 (amended): for the brush tools a positive direction increases
`brush_radius` by the fixed increment 1 and a non-positive direction
decreases it by 1; for the flood tools a positive direction increases the
tolerance by the increment and a non-positive direction decreases it; for
`ThresholdTool` the direction is inverted — a negative direction increases
the threshold by the increment and a non-negative one decreases it. In every
case the change is subject to the setter's domain guard (the parameter is
left unchanged when the nudged value would fall outside the domain), which
the hypotheses rule out. -/
theorem C1_amended_on_adjust :
    (∀ (s : ThresholdToolState) (mgr : UndoManager) (p : Patch) (d : Int),
       s.patch = some p → 0 ≤ d →
       0 ≤ s.threshold - s.increment → s.threshold - s.increment ≤ 1 →
       (ThresholdTool.on_adjust s mgr d).map (fun r => r.state.threshold)
         = some (s.threshold - s.increment)) ∧
    (∀ (s : ThresholdToolState) (mgr : UndoManager) (p : Patch) (d : Int),
       s.patch = some p → d < 0 →
       0 ≤ s.threshold + s.increment → s.threshold + s.increment ≤ 1 →
       (ThresholdTool.on_adjust s mgr d).map (fun r => r.state.threshold)
         = some (s.threshold + s.increment)) ∧
    (∀ (s : BrushToolState) (d : Int), 0 < d → 0 ≤ s.brush_radius →
       (AddRegionTool.on_adjust s d).1.brush_radius = s.brush_radius + 1) ∧
    (∀ (s : BrushToolState) (d : Int), d ≤ 0 → 1 ≤ s.brush_radius →
       (AddRegionTool.on_adjust s d).1.brush_radius = s.brush_radius - 1) ∧
    (∀ (s : BrushToolState) (d : Int), 0 < d → 0 ≤ s.brush_radius →
       (RemoveRegionTool.on_adjust s d).1.brush_radius = s.brush_radius + 1) ∧
    (∀ (s : BrushToolState) (d : Int), d ≤ 0 → 1 ≤ s.brush_radius →
       (RemoveRegionTool.on_adjust s d).1.brush_radius = s.brush_radius - 1) ∧
    (∀ (rm : RegionMath) (s : FloodToolState) (p : Patch) (mgr : UndoManager)
       (d : Int), 0 < d → 0 ≤ s.tolerance + s.increment →
       (FloodAddTool.on_adjust rm s p mgr d).1.tolerance
         = s.tolerance + s.increment) ∧
    (∀ (rm : RegionMath) (s : FloodToolState) (p : Patch) (mgr : UndoManager)
       (d : Int), d ≤ 0 → 0 ≤ s.tolerance - s.increment →
       (FloodAddTool.on_adjust rm s p mgr d).1.tolerance
         = s.tolerance - s.increment) ∧
    (∀ (rm : RegionMath) (s : FloodToolState) (p : Patch) (mgr : UndoManager)
       (d : Int), 0 < d → 0 < s.tolerance + s.increment →
       (FloodRemoveTool.on_adjust rm s p mgr d).1.tolerance
         = s.tolerance + s.increment) ∧
    (∀ (rm : RegionMath) (s : FloodToolState) (p : Patch) (mgr : UndoManager)
       (d : Int), d ≤ 0 → 0 < s.tolerance - s.increment →
       (FloodRemoveTool.on_adjust rm s p mgr d).1.tolerance
         = s.tolerance - s.increment) := by
  refine ⟨fun s mgr p d hp hd hlo hhi => ?_, fun s mgr p d hp hd hlo hhi => ?_,
          fun s d hd hr => ?_, fun s d hd hr => ?_,
          fun s d hd hr => ?_, fun s d hd hr => ?_,
          fun rm s p mgr d hd ht => ?_, fun rm s p mgr d hd ht => ?_,
          fun rm s p mgr d hd ht => ?_, fun rm s p mgr d hd ht => ?_⟩
  · rw [ThresholdTool.on_adjust, ThresholdTool.adjust_threshold,
        if_neg (by omega : ¬ d < 0)]
    cases hnp : s.new_patch with
    | false =>
        rw [ThresholdTool.set_threshold_of_bound s mgr _ p hhi hlo hnp hp]
        rfl
    | true =>
        rw [ThresholdTool.set_threshold_of_new_patch s mgr _ hhi hlo hnp]
        rfl
  · rw [ThresholdTool.on_adjust, ThresholdTool.adjust_threshold, if_pos hd]
    cases hnp : s.new_patch with
    | false =>
        rw [ThresholdTool.set_threshold_of_bound s mgr _ p hhi hlo hnp hp]
        rfl
    | true =>
        rw [ThresholdTool.set_threshold_of_new_patch s mgr _ hhi hlo hnp]
        rfl
  · rw [AddRegionTool.on_adjust, if_pos hd, AddRegionTool.set_brush_radius,
        if_pos (by linarith : (0:ℚ) ≤ s.brush_radius + 1)]
  · rw [AddRegionTool.on_adjust, if_neg (by omega : ¬ 0 < d),
        AddRegionTool.set_brush_radius,
        if_pos (by linarith : (0:ℚ) ≤ s.brush_radius - 1)]
  · rw [RemoveRegionTool.on_adjust, if_pos hd, RemoveRegionTool.set_brush_radius,
        if_pos (by linarith : (0:ℚ) ≤ s.brush_radius + 1)]
  · rw [RemoveRegionTool.on_adjust, if_neg (by omega : ¬ 0 < d),
        RemoveRegionTool.set_brush_radius,
        if_pos (by linarith : (0:ℚ) ≤ s.brush_radius - 1)]
  · rw [FloodAddTool.on_adjust_state_add, if_pos hd,
        FloodAddTool.set_tolerance_stores, if_pos ht]
  · rw [FloodAddTool.on_adjust_state_add, if_neg (by omega : ¬ 0 < d),
        FloodAddTool.set_tolerance_stores, if_pos ht]
  · rw [FloodRemoveTool.on_adjust_state_remove, if_pos hd,
        FloodRemoveTool.set_tolerance_guards, if_pos ht]
  · rw [FloodRemoveTool.on_adjust_state_remove, if_neg (by omega : ¬ 0 < d),
        FloodRemoveTool.set_tolerance_guards, if_pos ht]

/-- Concrete instantiation of the amended C1 at both directions. -/
theorem C1_amended_witness :
    (ThresholdTool.on_adjust thresholdFixture emptyUndoManager (-1)).map
        (fun r => r.state.threshold) = some (51/100) ∧
    (AddRegionTool.on_adjust BrushToolState.init 1).1.brush_radius = 16 ∧
    (AddRegionTool.on_adjust BrushToolState.init (-1)).1.brush_radius = 14 ∧
    (FloodAddTool.on_adjust RegionMath.triv FloodToolState.init samplePatch
       emptyUndoManager 1).1.tolerance = 3/50 ∧
    (FloodRemoveTool.on_adjust RegionMath.triv FloodToolState.init samplePatch
       emptyUndoManager (-1)).1.tolerance = 1/25 := by
  refine ⟨?_, ?_, ?_, ?_, ?_⟩
  · have := C1_amended_on_adjust.2.1 thresholdFixture emptyUndoManager
      samplePatch (-1) rfl (by norm_num)
      (by norm_num [thresholdFixture, ThresholdToolState.init])
      (by norm_num [thresholdFixture, ThresholdToolState.init])
    rw [this]
    norm_num [thresholdFixture, ThresholdToolState.init]
  · have := C1_amended_on_adjust.2.2.1 BrushToolState.init 1 (by norm_num)
      (by norm_num [BrushToolState.init])
    rw [this]
    norm_num [BrushToolState.init]
  · have := C1_amended_on_adjust.2.2.2.1 BrushToolState.init (-1) (by norm_num)
      (by norm_num [BrushToolState.init])
    rw [this]
    norm_num [BrushToolState.init]
  · have := C1_amended_on_adjust.2.2.2.2.2.2.1 RegionMath.triv
      FloodToolState.init samplePatch emptyUndoManager 1 (by norm_num)
      (by norm_num [FloodToolState.init])
    rw [this]
    norm_num [FloodToolState.init]
  · have := C1_amended_on_adjust.2.2.2.2.2.2.2.2.2 RegionMath.triv
      FloodToolState.init samplePatch emptyUndoManager (-1) (by norm_num)
      (by norm_num [FloodToolState.init])
    rw [this]
    norm_num [FloodToolState.init]

/-- C2 fails as stated: `ThresholdTool.on_adjust` implements `on_adjust` and
its accepted adjustment pushes a `threshold_adjust` entry through the
threshold setter — starting from an empty undo stack, one adjust leaves one
entry. -/
theorem C2_counterexample :
    emptyUndoManager.undo_stack.length = 0 ∧
    (ThresholdTool.on_adjust thresholdFixture emptyUndoManager 1).map
        (fun r => r.mgr.undo_stack.length) = some 1 := by
  refine ⟨rfl, ?_⟩
  rw [ThresholdTool.on_adjust, ThresholdTool.adjust_threshold,
      if_neg (by norm_num : ¬ (1:Int) < 0),
      ThresholdTool.set_threshold_of_bound thresholdFixture emptyUndoManager
        _ samplePatch
        (by norm_num [thresholdFixture, ThresholdToolState.init])
        (by norm_num [thresholdFixture, ThresholdToolState.init]) rfl rfl]
  rfl

/-- C2 (amended): the flood tools' `on_adjust` never touches the undo
manager, so after a flood-add click (which pushes the one snapshot) any two
adjusts leave the undo stack exactly as the click left it, and a single
`undo()` returns the pre-click patch under tag `flood_add`. `ThresholdTool`
is the exception: its accepted `on_adjust` pushes a `threshold_adjust` entry
via the threshold setter. -/
theorem C2_amended_adjust_pushes_nothing (rm : RegionMath) (s : FloodToolState)
    (p : Patch) (mgr : UndoManager) (pos : Pos) (d1 d2 : Int)
    (hcap : 0 < mgr.capacity) :
    (∀ (s' : FloodToolState) (p' : Patch) (mgr' : UndoManager) (d : Int),
       (FloodAddTool.on_adjust rm s' p' mgr' d).2.2.1 = mgr' ∧
       (FloodRemoveTool.on_adjust rm s' p' mgr' d).2.2.1 = mgr') ∧
    (FloodAddTool.on_adjust rm
        (FloodAddTool.on_adjust rm
           (FloodAddTool.on_click rm s p mgr pos).1
           (FloodAddTool.on_click rm s p mgr pos).2.1
           (FloodAddTool.on_click rm s p mgr pos).2.2.1 d1).1
        (FloodAddTool.on_adjust rm
           (FloodAddTool.on_click rm s p mgr pos).1
           (FloodAddTool.on_click rm s p mgr pos).2.1
           (FloodAddTool.on_click rm s p mgr pos).2.2.1 d1).2.1
        (FloodAddTool.on_adjust rm
           (FloodAddTool.on_click rm s p mgr pos).1
           (FloodAddTool.on_click rm s p mgr pos).2.1
           (FloodAddTool.on_click rm s p mgr pos).2.2.1 d1).2.2.1 d2).2.2.1
      = mgr.add_to_undo_stack p "flood_add" ∧
    ((FloodAddTool.on_adjust rm
        (FloodAddTool.on_adjust rm
           (FloodAddTool.on_click rm s p mgr pos).1
           (FloodAddTool.on_click rm s p mgr pos).2.1
           (FloodAddTool.on_click rm s p mgr pos).2.2.1 d1).1
        (FloodAddTool.on_adjust rm
           (FloodAddTool.on_click rm s p mgr pos).1
           (FloodAddTool.on_click rm s p mgr pos).2.1
           (FloodAddTool.on_click rm s p mgr pos).2.2.1 d1).2.1
        (FloodAddTool.on_adjust rm
           (FloodAddTool.on_click rm s p mgr pos).1
           (FloodAddTool.on_click rm s p mgr pos).2.1
           (FloodAddTool.on_click rm s p mgr pos).2.2.1 d1).2.2.1 d2).2.2.1.undo
       (FloodAddTool.on_adjust rm
          (FloodAddTool.on_adjust rm
             (FloodAddTool.on_click rm s p mgr pos).1
             (FloodAddTool.on_click rm s p mgr pos).2.1
             (FloodAddTool.on_click rm s p mgr pos).2.2.1 d1).1
          (FloodAddTool.on_adjust rm
             (FloodAddTool.on_click rm s p mgr pos).1
             (FloodAddTool.on_click rm s p mgr pos).2.1
             (FloodAddTool.on_click rm s p mgr pos).2.2.1 d1).2.1
          (FloodAddTool.on_adjust rm
             (FloodAddTool.on_click rm s p mgr pos).1
             (FloodAddTool.on_click rm s p mgr pos).2.1
             (FloodAddTool.on_click rm s p mgr pos).2.2.1 d1).2.2.1 d2).2.1).1
      = some (p, "flood_add") := by
  obtain ⟨k, hk⟩ : ∃ k, mgr.capacity = k + 1 := ⟨mgr.capacity - 1, by omega⟩
  refine ⟨fun s' p' mgr' d => ⟨rfl, rfl⟩, rfl, ?_⟩
  show ((mgr.add_to_undo_stack p "flood_add").undo _).1 = some (p, "flood_add")
  rw [UndoManager.add_to_undo_stack]
  simp only [UndoManager.undo, hk, List.take_succ_cons]

/-- Concrete instantiation of the amended C2: click at (0,0), adjust up
twice, one undo returns the pre-click patch tagged `flood_add`. -/
theorem C2_amended_witness :
    (FloodAddTool.on_adjust RegionMath.triv
        (FloodAddTool.on_adjust RegionMath.triv
           (FloodAddTool.on_click RegionMath.triv FloodToolState.init
              samplePatch emptyUndoManager (0, 0)).1
           (FloodAddTool.on_click RegionMath.triv FloodToolState.init
              samplePatch emptyUndoManager (0, 0)).2.1
           (FloodAddTool.on_click RegionMath.triv FloodToolState.init
              samplePatch emptyUndoManager (0, 0)).2.2.1 1).1
        (FloodAddTool.on_adjust RegionMath.triv
           (FloodAddTool.on_click RegionMath.triv FloodToolState.init
              samplePatch emptyUndoManager (0, 0)).1
           (FloodAddTool.on_click RegionMath.triv FloodToolState.init
              samplePatch emptyUndoManager (0, 0)).2.1
           (FloodAddTool.on_click RegionMath.triv FloodToolState.init
              samplePatch emptyUndoManager (0, 0)).2.2.1 1).2.1
        (FloodAddTool.on_adjust RegionMath.triv
           (FloodAddTool.on_click RegionMath.triv FloodToolState.init
              samplePatch emptyUndoManager (0, 0)).1
           (FloodAddTool.on_click RegionMath.triv FloodToolState.init
              samplePatch emptyUndoManager (0, 0)).2.1
           (FloodAddTool.on_click RegionMath.triv FloodToolState.init
              samplePatch emptyUndoManager (0, 0)).2.2.1 1).2.2.1 1).2.2.1
      = emptyUndoManager.add_to_undo_stack samplePatch "flood_add" :=
  (C2_amended_adjust_pushes_nothing RegionMath.triv FloodToolState.init
     samplePatch emptyUndoManager (0, 0) 1 1
     (by norm_num [emptyUndoManager])).2.1

/-- C3: setting a tool parameter to a value outside its valid domain
(threshold outside [0,1], negative brush radius, negative flood tolerance) is
rejected silently: the whole tool state (including the bound patch) is
unchanged, the undo manager is unchanged (no entry pushed), and zero observer
notification rounds run. -/
theorem C3_out_of_domain_silently_rejected (v : Rat) :
    (∀ (s : ThresholdToolState) (mgr : UndoManager), ¬ (v ≤ 1 ∧ 0 ≤ v) →
       ThresholdTool.set_threshold s mgr v = some ⟨s, mgr, 0⟩) ∧
    (∀ (s : BrushToolState), v < 0 →
       AddRegionTool.set_brush_radius s v = (s, 0)) ∧
    (∀ (s : BrushToolState), v < 0 →
       RemoveRegionTool.set_brush_radius s v = (s, 0)) ∧
    (∀ (rm : RegionMath) (s : FloodToolState) (p : Patch), v < 0 →
       FloodAddTool.set_tolerance rm s p v = (s, p, 0)) ∧
    (∀ (rm : RegionMath) (s : FloodToolState) (p : Patch), v < 0 →
       FloodRemoveTool.set_tolerance rm s p v = (s, p, 0)) := by
  refine ⟨fun s mgr h => ?_, fun s h => ?_, fun s h => ?_,
          fun rm s p h => ?_, fun rm s p h => ?_⟩
  · simp only [ThresholdTool.set_threshold, if_neg h]
  · simp only [AddRegionTool.set_brush_radius, if_neg (by linarith : ¬ (0:ℚ) ≤ v)]
  · simp only [RemoveRegionTool.set_brush_radius, if_neg (by linarith : ¬ (0:ℚ) ≤ v)]
  · simp only [FloodAddTool.set_tolerance, if_neg (by linarith : ¬ (0:ℚ) ≤ v)]
  · simp only [FloodRemoveTool.set_tolerance, if_neg (by linarith : ¬ (0:ℚ) < v)]

/-- Concrete instantiation of C3 at value -1 (and 2 for the threshold). -/
theorem C3_witness :
    ThresholdTool.set_threshold ThresholdToolState.init emptyUndoManager 2
      = some ⟨ThresholdToolState.init, emptyUndoManager, 0⟩ ∧
    AddRegionTool.set_brush_radius BrushToolState.init (-1)
      = (BrushToolState.init, 0) ∧
    FloodRemoveTool.set_tolerance RegionMath.triv FloodToolState.init samplePatch (-1)
      = (FloodToolState.init, samplePatch, 0) :=
  ⟨(C3_out_of_domain_silently_rejected 2).1 ThresholdToolState.init emptyUndoManager
     (by norm_num),
   (C3_out_of_domain_silently_rejected (-1)).2.1 BrushToolState.init (by norm_num),
   (C3_out_of_domain_silently_rejected (-1)).2.2.2.2 RegionMath.triv
     FloodToolState.init samplePatch (by norm_num)⟩

/-- C4: for a valid current index i, `NextPatchTool._next_patch` returns
(ps[i+1], i+1) when i+1 < len ps and (None, -1) otherwise (in particular at
the last index); `PreviousPatchTool._prev_patch` returns (ps[i-1], i-1) when
i-1 >= 0 and (None, -1) at index 0. -/
theorem C4_patch_navigation (patches : List Patch) (i : Int)
    (h0 : 0 ≤ i) (h1 : i < (patches.length : Int)) :
    (i + 1 < (patches.length : Int) →
       NextPatchTool.next_patch patches i
         = some (patches.get? (i + 1).toNat, i + 1)) ∧
    (¬ i + 1 < (patches.length : Int) →
       NextPatchTool.next_patch patches i = some (none, -1)) ∧
    (0 ≤ i - 1 →
       PreviousPatchTool.prev_patch patches i
         = some (patches.get? (i - 1).toNat, i - 1)) ∧
    (i = 0 → PreviousPatchTool.prev_patch patches i = some (none, -1)) := by
  refine ⟨fun h => ?_, fun h => ?_, fun h => ?_, fun h => ?_⟩
  · have hlt : (i + 1).toNat < patches.length := by omega
    simp only [NextPatchTool.next_patch]
    rw [if_pos h, pyGet_of_nonneg patches (i + 1) (by omega),
        List.get?_eq_get hlt]
  · simp only [NextPatchTool.next_patch]
    rw [if_neg h]
  · have hlt : (i - 1).toNat < patches.length := by omega
    simp only [PreviousPatchTool.prev_patch]
    rw [if_pos h, pyGet_of_nonneg patches (i - 1) (by omega),
        List.get?_eq_get hlt]
  · subst h
    simp [PreviousPatchTool.prev_patch]

/-- Concrete instantiation of C4 on a two-patch list: next from 1 (the last
index) gives (None, -1), previous from 0 gives (None, -1), next from 0 gives
patch 1, previous from 1 gives patch 0. -/
theorem C4_witness :
    NextPatchTool.next_patch [samplePatch, samplePatch2] 1 = some (none, -1) ∧
    PreviousPatchTool.prev_patch [samplePatch, samplePatch2] 0 = some (none, -1) ∧
    NextPatchTool.next_patch [samplePatch, samplePatch2] 0
      = some (some samplePatch2, 1) ∧
    PreviousPatchTool.prev_patch [samplePatch, samplePatch2] 1
      = some (some samplePatch, 0) :=
  ⟨(C4_patch_navigation [samplePatch, samplePatch2] 1 (by norm_num)
      (by norm_num)).2.1 (by norm_num),
   (C4_patch_navigation [samplePatch, samplePatch2] 0 (by norm_num)
      (by norm_num)).2.2.2 rfl,
   (C4_patch_navigation [samplePatch, samplePatch2] 0 (by norm_num)
      (by norm_num)).1 (by norm_num),
   (C4_patch_navigation [samplePatch, samplePatch2] 1 (by norm_num)
      (by norm_num)).2.2.1 (by norm_num)⟩

/-- C10: `FloodAddTool.tolerance` accepts 0 (stores it, re-runs the flood from
the last seed when one is remembered, and notifies), while
`FloodRemoveTool.tolerance` rejects 0 exactly like a negative value (no state
change, no re-run, no notification), so its tolerance can only read 0 after
the setter if it already was 0. -/
theorem C10_zero_tolerance_asymmetry (rm : RegionMath) (s : FloodToolState)
    (p : Patch) :
    (FloodAddTool.set_tolerance rm s p 0).1.tolerance = 0 ∧
    (0 < (FloodAddTool.set_tolerance rm s p 0).2.2) ∧
    (∀ pos, s.prev_position = some pos →
       (FloodAddTool.set_tolerance rm s p 0).2.1 = rm.flood_add_region pos 0 p) ∧
    FloodRemoveTool.set_tolerance rm s p 0 = (s, p, 0) ∧
    (∀ v, (FloodRemoveTool.set_tolerance rm s p v).1.tolerance = 0 →
       s.tolerance = 0) := by
  have hacc : (0:ℚ) ≤ 0 := le_refl 0
  refine ⟨?_, ?_, fun pos hpos => ?_, ?_, fun v hv => ?_⟩
  · simp only [FloodAddTool.set_tolerance, if_pos hacc]
  · simp only [FloodAddTool.set_tolerance, if_pos hacc]
    cases hp : s.prev_position <;> simp [FloodAddTool.add_region, hp]
  · simp only [FloodAddTool.set_tolerance, if_pos hacc]
    simp [FloodAddTool.add_region, hpos]
  · simp [FloodRemoveTool.set_tolerance]
  · rw [FloodRemoveTool.set_tolerance_guards] at hv
    by_cases hvpos : (0:ℚ) < v
    · rw [if_pos hvpos] at hv
      exact absurd hv (ne_of_gt hvpos)
    · rwa [if_neg hvpos] at hv

/-- Concrete instantiation of C10: with a remembered seed, setting tolerance 0
on flood-add stores it and re-floods; on flood-remove it is a no-op. -/
theorem C10_witness :
    (FloodAddTool.set_tolerance RegionMath.triv
       { FloodToolState.init with prev_position := some (3, 4) }
       samplePatch 0).1.tolerance = 0 ∧
    (FloodAddTool.set_tolerance RegionMath.triv
       { FloodToolState.init with prev_position := some (3, 4) }
       samplePatch 0).2.1
      = RegionMath.triv.flood_add_region (3, 4) 0 samplePatch ∧
    FloodRemoveTool.set_tolerance RegionMath.triv
       { FloodToolState.init with prev_position := some (3, 4) }
       samplePatch 0
      = ({ FloodToolState.init with prev_position := some (3, 4) }, samplePatch, 0) :=
  ⟨(C10_zero_tolerance_asymmetry RegionMath.triv
      { FloodToolState.init with prev_position := some (3, 4) } samplePatch).1,
   (C10_zero_tolerance_asymmetry RegionMath.triv
      { FloodToolState.init with prev_position := some (3, 4) } samplePatch).2.2.1
      (3, 4) rfl,
   (C10_zero_tolerance_asymmetry RegionMath.triv
      { FloodToolState.init with prev_position := some (3, 4) } samplePatch).2.2.2.1⟩

/-- Popping right after a push returns the pushed snapshot and tag, for any
positive capacity. -/
theorem UndoManager.undo_after_push (mgr : UndoManager) (p current : Patch)
    (tag : String) (hcap : 0 < mgr.capacity) :
    ((mgr.add_to_undo_stack p tag).undo current).1 = some (p, tag) := by
  obtain ⟨k, hk⟩ : ∃ k, mgr.capacity = k + 1 := ⟨mgr.capacity - 1, by omega⟩
  rw [UndoManager.add_to_undo_stack]
  simp only [UndoManager.undo, hk, List.take_succ_cons]

/-- C5 fails as stated: the flood tools do not override the base class's
`on_drag`, which is `pass` — invoking `on_drag` on `FloodAddTool` changes
nothing and pushes no snapshot (the claim requires exactly one push per
`on_drag` invocation of every brush and flood tool). -/
theorem C5_counterexample :
    FloodAddTool.on_drag FloodToolState.init samplePatch emptyUndoManager
        (0, 0) none
      = (FloodToolState.init, samplePatch, emptyUndoManager, 0) ∧
    (FloodAddTool.on_drag FloodToolState.init samplePatch emptyUndoManager
        (0, 0) none).2.2.1.undo_stack.length = 0 :=
  ⟨rfl, rfl⟩

/-- C5 (amended): for the brush tools each `on_click` and each `on_drag`, and
for the flood tools each `on_click`, pushes exactly one deep-copy snapshot of
the bound patch before the mask mutation: the manager receives exactly the
pre-mutation patch (for any region math, so later edits cannot affect it),
the live patch becomes the mutated one, and the stack grows by one entry (up
to capacity). Flood tools inherit the base no-op `on_drag`, which pushes
nothing. -/
theorem C5_amended_push_before_mutation (rm : RegionMath) (sB : BrushToolState)
    (sF : FloodToolState) (p : Patch) (mgr : UndoManager) (pos : Pos)
    (did : Option Nat) (hcap : 0 < mgr.capacity) :
    AddRegionTool.on_click rm sB p mgr pos
      = (rm.add_region pos sB.brush_radius p,
         mgr.add_to_undo_stack p "add_region", 1) ∧
    AddRegionTool.on_drag rm sB p mgr pos did
      = (rm.add_region pos sB.brush_radius p,
         mgr.add_to_undo_stack p (AddRegionTool.drag_tag did), 1) ∧
    RemoveRegionTool.on_click rm sB p mgr pos
      = (rm.remove_region pos sB.brush_radius p,
         mgr.add_to_undo_stack p "remove_region", 1) ∧
    RemoveRegionTool.on_drag rm sB p mgr pos did
      = (rm.remove_region pos sB.brush_radius p,
         mgr.add_to_undo_stack p (RemoveRegionTool.drag_tag did), 1) ∧
    FloodAddTool.on_click rm sF p mgr pos
      = ({ sF with prev_position := some pos },
         rm.flood_add_region pos sF.tolerance p,
         mgr.add_to_undo_stack p "flood_add", 1) ∧
    FloodRemoveTool.on_click rm sF p mgr pos
      = ({ sF with prev_position := some pos },
         rm.flood_remove_region pos sF.tolerance p,
         mgr.add_to_undo_stack p "flood_remove", 1) ∧
    (mgr.add_to_undo_stack p "add_region").undo_stack.head?
      = some ⟨p, "add_region"⟩ ∧
    (mgr.add_to_undo_stack p "add_region").undo_stack.length
      = min mgr.capacity (mgr.undo_stack.length + 1) := by
  obtain ⟨k, hk⟩ : ∃ k, mgr.capacity = k + 1 := ⟨mgr.capacity - 1, by omega⟩
  refine ⟨rfl, rfl, rfl, rfl, rfl, rfl, ?_, ?_⟩
  · rw [UndoManager.add_to_undo_stack]
    simp only [hk, List.take_succ_cons, List.head?_cons]
  · simp [UndoManager.add_to_undo_stack, List.length_take]

/-- Concrete instantiation of the amended C5. -/
theorem C5_amended_witness :
    FloodAddTool.on_click RegionMath.triv FloodToolState.init samplePatch
        emptyUndoManager (0, 0)
      = ({ FloodToolState.init with prev_position := some (0, 0) },
         RegionMath.triv.flood_add_region (0, 0) FloodToolState.init.tolerance
           samplePatch,
         emptyUndoManager.add_to_undo_stack samplePatch "flood_add", 1) ∧
    (emptyUndoManager.add_to_undo_stack samplePatch "add_region").undo_stack.head?
      = some ⟨samplePatch, "add_region"⟩ :=
  ⟨(C5_amended_push_before_mutation RegionMath.triv BrushToolState.init
      FloodToolState.init samplePatch emptyUndoManager (0, 0) none
      (by norm_num [emptyUndoManager])).2.2.2.2.1,
   (C5_amended_push_before_mutation RegionMath.triv BrushToolState.init
      FloodToolState.init samplePatch emptyUndoManager (0, 0) none
      (by norm_num [emptyUndoManager])).2.2.2.2.2.2.1⟩

/-- C6: the undo entry pushed by `AddRegionTool.on_click` is tagged
`add_region` (so `undo()` right after the click returns that tag);
`on_drag` with drag id d uses `add_region_adjust_` followed by d, and with no
drag id plain `add_region_adjust`; `RemoveRegionTool` mirrors this with
`remove_region` and `remove_region_adjust`. -/
theorem C6_undo_entry_tags (rm : RegionMath) (sB : BrushToolState)
    (p current : Patch) (mgr : UndoManager) (pos : Pos) (d : Nat)
    (hcap : 0 < mgr.capacity) :
    AddRegionTool.drag_tag none = "add_region_adjust" ∧
    AddRegionTool.drag_tag (some d) = "add_region_adjust_" ++ toString d ∧
    RemoveRegionTool.drag_tag none = "remove_region_adjust" ∧
    RemoveRegionTool.drag_tag (some d) = "remove_region_adjust_" ++ toString d ∧
    (((AddRegionTool.on_click rm sB p mgr pos).2.1.undo current).1
      = some (p, "add_region")) ∧
    (((AddRegionTool.on_drag rm sB p mgr pos (some d)).2.1.undo current).1
      = some (p, "add_region_adjust_" ++ toString d)) ∧
    (((RemoveRegionTool.on_click rm sB p mgr pos).2.1.undo current).1
      = some (p, "remove_region")) ∧
    (((RemoveRegionTool.on_drag rm sB p mgr pos none).2.1.undo current).1
      = some (p, "remove_region_adjust")) := by
  have htagA : AddRegionTool.drag_tag (some d)
      = "add_region_adjust_" ++ toString d := by
    show "add_region_adjust" ++ ("_" ++ toString d)
      = "add_region_adjust_" ++ toString d
    rw [← String.append_assoc]
    rfl
  have htagR : RemoveRegionTool.drag_tag (some d)
      = "remove_region_adjust_" ++ toString d := by
    show "remove_region_adjust" ++ ("_" ++ toString d)
      = "remove_region_adjust_" ++ toString d
    rw [← String.append_assoc]
    rfl
  refine ⟨rfl, htagA, rfl, htagR, ?_, ?_, ?_, ?_⟩
  · exact UndoManager.undo_after_push mgr p current "add_region" hcap
  · show ((mgr.add_to_undo_stack p (AddRegionTool.drag_tag (some d))).undo
        current).1 = some (p, "add_region_adjust_" ++ toString d)
    rw [htagA]
    exact UndoManager.undo_after_push mgr p current _ hcap
  · exact UndoManager.undo_after_push mgr p current "remove_region" hcap
  · exact UndoManager.undo_after_push mgr p current "remove_region_adjust" hcap

/-- Concrete instantiation of C6 with drag id 7. -/
theorem C6_witness :
    AddRegionTool.drag_tag (some 7) = "add_region_adjust_7" ∧
    AddRegionTool.drag_tag none = "add_region_adjust" ∧
    (((AddRegionTool.on_click RegionMath.triv BrushToolState.init samplePatch
        emptyUndoManager (0, 0)).2.1.undo samplePatch2).1
      = some (samplePatch, "add_region")) :=
  ⟨(C6_undo_entry_tags RegionMath.triv BrushToolState.init samplePatch
      samplePatch2 emptyUndoManager (0, 0) 7
      (by norm_num [emptyUndoManager])).2.1,
   (C6_undo_entry_tags RegionMath.triv BrushToolState.init samplePatch
      samplePatch2 emptyUndoManager (0, 0) 7
      (by norm_num [emptyUndoManager])).1,
   (C6_undo_entry_tags RegionMath.triv BrushToolState.init samplePatch
      samplePatch2 emptyUndoManager (0, 0) 7
      (by norm_num [emptyUndoManager])).2.2.2.2.1⟩

/-- C7: `NoRootTool.on_activate(i)` pushes a deep copy of the bound patch
tagged `no_root` (the snapshot is the patch before the clear — an undo right
after returns it), clears the patch's mask, and hands the activation callback
the `_next_patch(i)` result — `(patches[i+1], i+1)` when `i+1` is in range
and `(None, -1)` when `i` is the last index. -/
theorem C7_no_root_activate (patches : List Patch) (p current : Patch)
    (mgr : UndoManager) (i : Int) (h0 : 0 ≤ i) :
    (i + 1 < (patches.length : Int) →
       NoRootTool.on_activate patches p mgr i
         = some (Patch.clear_mask p, mgr.add_to_undo_stack p "no_root",
                 (patches.get? (i + 1).toNat, i + 1))) ∧
    (¬ i + 1 < (patches.length : Int) →
       NoRootTool.on_activate patches p mgr i
         = some (Patch.clear_mask p, mgr.add_to_undo_stack p "no_root",
                 (none, -1))) ∧
    (0 < mgr.capacity →
       ((mgr.add_to_undo_stack p "no_root").undo current).1
         = some (p, "no_root")) ∧
    (Patch.clear_mask p).mask = p.mask.map (fun _ => false) := by
  refine ⟨fun h => ?_, fun h => ?_,
          fun hcap => UndoManager.undo_after_push mgr p current "no_root" hcap,
          rfl⟩
  · have hlt : (i + 1).toNat < patches.length := by omega
    simp only [NoRootTool.on_activate, NoRootTool.next_patch]
    rw [if_pos h, pyGet_of_nonneg patches (i + 1) (by omega),
        List.get?_eq_get hlt]
  · simp only [NoRootTool.on_activate, NoRootTool.next_patch]
    rw [if_neg h]

/-- Concrete instantiation of C7 on a two-patch list, at the last index and
at index 0. -/
theorem C7_witness :
    NoRootTool.on_activate [samplePatch, samplePatch2] samplePatch2
        emptyUndoManager 1
      = some (Patch.clear_mask samplePatch2,
              emptyUndoManager.add_to_undo_stack samplePatch2 "no_root",
              (none, -1)) ∧
    NoRootTool.on_activate [samplePatch, samplePatch2] samplePatch
        emptyUndoManager 0
      = some (Patch.clear_mask samplePatch,
              emptyUndoManager.add_to_undo_stack samplePatch "no_root",
              (some samplePatch2, 1)) := by
  constructor
  · exact (C7_no_root_activate [samplePatch, samplePatch2] samplePatch2
      samplePatch emptyUndoManager 1 (by norm_num)).2.1 (by norm_num)
  · have := (C7_no_root_activate [samplePatch, samplePatch2] samplePatch
      samplePatch2 emptyUndoManager 0 (by norm_num)).1 (by norm_num)
    rw [this]
    rfl

/-- C8: on a non-new display update with an existing canvas, `show_image`
sets the image, cancels any pending preview timer, and only then starts a
fresh 1.0-second timer for `update_preview`, which becomes the pending
timer — so the preview refresh fires only after a quiet second. -/
theorem C8_preview_timer_debounce (s : MainWindowState)
    (hc : s.canvas_present = true) :
    (∀ t, s.cur_preview_thread = some t →
       MainWindow.show_image s false
         = ({ s with cur_preview_thread := some 1 },
            [MWAction.setImage, MWAction.cancelTimer, MWAction.startTimer 1])) ∧
    (s.cur_preview_thread = none →
       MainWindow.show_image s false
         = ({ s with cur_preview_thread := some 1 },
            [MWAction.setImage, MWAction.startTimer 1])) := by
  constructor
  · intro t ht
    simp [MainWindow.show_image, hc, ht]
  · intro ht
    simp [MainWindow.show_image, hc, ht]

/-- Concrete instantiation of C8 with and without a pending timer. -/
theorem C8_witness :
    MainWindow.show_image ⟨true, some 1⟩ false
      = (⟨true, some 1⟩,
         [MWAction.setImage, MWAction.cancelTimer, MWAction.startTimer 1]) ∧
    MainWindow.show_image ⟨true, none⟩ false
      = (⟨true, some 1⟩, [MWAction.setImage, MWAction.startTimer 1]) :=
  ⟨(C8_preview_timer_debounce ⟨true, some 1⟩ rfl).1 1 rfl,
   (C8_preview_timer_debounce ⟨true, none⟩ rfl).2 rfl⟩

/-- C9: after rebinding the threshold tool to a patch with a different index
(or when none was bound), the first in-range threshold assignment only
updates the tool's own threshold and notifies observers — the patch is not
written and no undo entry is pushed — and clears `_new_patch`; the second
in-range assignment writes the patch and pushes a `threshold_adjust` entry
(undos being unlocked). -/
theorem C9_first_assignment_after_rebind (s : ThresholdToolState)
    (mgr : UndoManager) (p : Patch) (v w : Rat)
    (hrebind : s.patch = none ∨
       ∃ q, s.patch = some q ∧ q.patch_index ≠ p.patch_index)
    (hv1 : v ≤ 1) (hv0 : 0 ≤ v) (hw1 : w ≤ 1) (hw0 : 0 ≤ w)
    (hcu : s.can_undo = true) :
    (ThresholdTool.set_patch s p).new_patch = true ∧
    ∃ r1, ThresholdTool.set_threshold (ThresholdTool.set_patch s p) mgr v
        = some r1 ∧
      r1.state.threshold = v ∧
      r1.state.patch = some p ∧
      r1.mgr = mgr ∧
      r1.notified = 1 ∧
      r1.state.new_patch = false ∧
      ∃ r2, ThresholdTool.set_threshold r1.state mgr w = some r2 ∧
        r2.state.patch = some { p with threshold := w } ∧
        r2.mgr = mgr.add_to_undo_stack { p with threshold := w }
                   "threshold_adjust" ∧
        r2.notified = 1 := by
  have h1 : (ThresholdTool.set_patch s p).new_patch = true := by
    rcases hrebind with h | ⟨q, hq, hne⟩
    · simp [ThresholdTool.set_patch, h]
    · simp only [ThresholdTool.set_patch, hq]
      rw [if_pos (fun hc => hne hc.symm)]
  refine ⟨h1, ?_⟩
  rw [ThresholdTool.set_threshold_of_new_patch (ThresholdTool.set_patch s p)
        mgr v hv1 hv0 h1]
  refine ⟨_, rfl, rfl, rfl, rfl, rfl, rfl, ?_⟩
  rw [ThresholdTool.set_threshold_of_bound _ mgr w p hw1 hw0 rfl rfl]
  refine ⟨_, rfl, rfl, ?_, rfl⟩
  have hcu2 : (ThresholdTool.set_patch s p).can_undo = true := hcu
  simp [hcu2]

/-- Concrete instantiation of C9: a fresh tool (no patch bound) is bound to a
patch; the first assignment of 1/4 leaves the manager alone, the second of
3/4 writes the patch and pushes. -/
theorem C9_witness :
    (ThresholdTool.set_patch ThresholdToolState.init samplePatch).new_patch
        = true ∧
    ∃ r1, ThresholdTool.set_threshold
        (ThresholdTool.set_patch ThresholdToolState.init samplePatch)
        emptyUndoManager (1/4) = some r1 ∧
      r1.state.threshold = 1/4 ∧
      r1.state.patch = some samplePatch ∧
      r1.mgr = emptyUndoManager ∧
      r1.notified = 1 ∧
      r1.state.new_patch = false ∧
      ∃ r2, ThresholdTool.set_threshold r1.state emptyUndoManager (3/4)
          = some r2 ∧
        r2.state.patch = some { samplePatch with threshold := 3/4 } ∧
        r2.mgr = emptyUndoManager.add_to_undo_stack
                   { samplePatch with threshold := 3/4 } "threshold_adjust" ∧
        r2.notified = 1 :=
  C9_first_assignment_after_rebind ThresholdToolState.init emptyUndoManager
    samplePatch (1/4) (3/4) (Or.inl rfl) (by norm_num) (by norm_num)
    (by norm_num) (by norm_num) rfl
